import Mathlib

/-!
Verification of the preview-slot core of the PSD procedural logic engine.

The repository ships two variants of the same component:
  * src/components/AssetPreviewNode.tsx  (referred to below as the "tsx" variant)
  * src/unnamed/part_000                 (referred to below as the "p0" variant)
Their payload-resolution, selection and publish logic is identical; their
compositors differ (pixel-lookup fallback, binary readiness gate, wireframe
style).  Where the variants agree we embed the logic once, keeping the source
names; where they differ we embed both, suffixing the tsx variant with `Tsx`.

Numbers that are JS floats in the source are modelled as integers: every claim
under consideration only compares, minimises or copies coordinates, so the
numeric subdomain is irrelevant to the statements proved here.
-/

/-- Layer variants: the source discriminates on the string field
`layer.type`, comparing it against the literal `generative`; the audit
breakdown additionally distinguishes `group` from the pixel default. -/
inductive LTy where
  | pixel | group | generative
deriving DecidableEq, Repr

/-- `TransformedLayer` (src/types, reconstructed from its use in both
variants): `id`, `name`, `type`, `isVisible`, `coords = {x, y, w, h}`,
`opacity`, `transform.rotation`, optional `children`. -/
inductive TLayer where
  | mk (id name : String) (ty : LTy) (isVisible : Bool)
       (x y w h : Int) (opacity rotation : Int)
       (children : Option (List TLayer))
deriving Repr

def TLayer.id : TLayer → String
  | .mk i _ _ _ _ _ _ _ _ _ _ => i

def TLayer.name : TLayer → String
  | .mk _ n _ _ _ _ _ _ _ _ _ => n

def TLayer.ty : TLayer → LTy
  | .mk _ _ t _ _ _ _ _ _ _ _ => t

def TLayer.isVisible : TLayer → Bool
  | .mk _ _ _ v _ _ _ _ _ _ _ => v

def TLayer.x : TLayer → Int
  | .mk _ _ _ _ x _ _ _ _ _ _ => x

def TLayer.y : TLayer → Int
  | .mk _ _ _ _ _ y _ _ _ _ _ => y

def TLayer.w : TLayer → Int
  | .mk _ _ _ _ _ _ w _ _ _ _ => w

def TLayer.h : TLayer → Int
  | .mk _ _ _ _ _ _ _ h _ _ _ => h

def TLayer.children : TLayer → Option (List TLayer)
  | .mk _ _ _ _ _ _ _ _ _ _ c => c

/-- `TransformedPayload` (src/types, reconstructed from its use in both
variants: `sourceNodeId`, `targetContainer`, `metrics.target = {w, h}`,
`scaleFactor`, `layers`, optional `previewUrl`, and the `isPolished` flag
that the publish effect forces to `true`). -/
structure Payload where
  sourceNodeId : String
  targetContainer : String
  targetW : Int
  targetH : Int
  scaleFactor : Int
  layers : List TLayer
  previewUrl : Option String
  isPolished : Bool

/-- A reactflow edge as used by the component: `source`, `sourceHandle`,
`target`, `targetHandle`; handles may be null/undefined, modelled as
`Option String`. -/
structure GraphEdge where
  source : String
  sourceHandle : Option String
  target : String
  targetHandle : Option String
deriving DecidableEq, Repr

/-- A payload registry (`Record<string, Record<string, TransformedPayload>>`):
a double-keyed partial map, node id then port id. -/
abbrev Registry := String → String → Option Payload

/-- The registry with no entries. -/
def emptyRegistry : Registry := fun _ _ => none

/-- `PreviewMode` (src/types, reconstructed from use: the literals
`PROCEDURAL` and `POLISHED` are the only values that occur). -/
inductive PreviewMode where
  | PROCEDURAL | POLISHED
deriving DecidableEq, Repr

/-- Step 1 of `PreviewInstanceRow`: `edges.find((e) => e.target === nodeId &&
e.targetHandle === payload-in-index)`. -/
def upstreamEdge (edges : List GraphEdge) (nodeId : String) (index : Nat) :
    Option GraphEdge :=
  edges.find? (fun e =>
    e.target == nodeId && e.targetHandle == some ("payload-in-" ++ toString index))

/-- Step 2 of `PreviewInstanceRow`: the polished payload is
`reviewerRegistry[upstreamEdge.source]?.[upstreamEdge.sourceHandle || '']`,
or undefined when the slot is disconnected. -/
def polishedPayload (edges : List GraphEdge) (reviewerRegistry : Registry)
    (nodeId : String) (index : Nat) : Option Payload :=
  match upstreamEdge edges nodeId index with
  | none => none
  | some e => reviewerRegistry e.source (e.sourceHandle.getD "")

/-- First-occurrence string replacement over the character list, mirroring
the JS `String.prototype.replace` with a string pattern (which replaces only
the first occurrence). -/
def replaceFirstChars (pat rep : List Char) : List Char → List Char
  | [] => []
  | c :: rest =>
    if pat.isPrefixOf (c :: rest) then rep ++ (c :: rest).drop pat.length
    else c :: replaceFirstChars pat rep rest

/-- JS `s.replace(pat, rep)` for string patterns: replace the first
occurrence only. -/
def replaceFirst (s pat rep : String) : String :=
  ⟨replaceFirstChars pat.data rep.data s.data⟩

/-- Step 3 of `PreviewInstanceRow` (identical in both variants): trace back
to the grandparent remapper.  `upstreamInputHandle =
upstreamEdge.sourceHandle?.replace('polished-out', 'payload-in')`; the JS
guard `if (upstreamInputHandle)` is false exactly when the handle is
undefined or the derived string is empty, in which case — or when no
grandparent edge feeds the derived input — the upstream node itself is
treated as the procedural source. -/
def proceduralPayload (edges : List GraphEdge) (payloadRegistry : Registry)
    (nodeId : String) (index : Nat) : Option Payload :=
  match upstreamEdge edges nodeId index with
  | none => none
  | some e =>
    match e.sourceHandle.map (fun s => replaceFirst s "polished-out" "payload-in") with
    | some hIn =>
      if hIn = "" then payloadRegistry e.source (e.sourceHandle.getD "")
      else
        match edges.find? (fun g => g.target == e.source && g.targetHandle == some hIn) with
        | some gp => payloadRegistry gp.source (gp.sourceHandle.getD "")
        | none => payloadRegistry e.source (e.sourceHandle.getD "")
    | none => payloadRegistry e.source (e.sourceHandle.getD "")

/-- Step 4 of `PreviewInstanceRow` (identical in both variants):
`if (activeMode === 'POLISHED') displayPayload = polishedPayload; else
displayPayload = proceduralPayload;` — no cross-mode fallback. -/
def displayPayload (mode : PreviewMode) (polished procedural : Option Payload) :
    Option Payload :=
  match mode with
  | .POLISHED => polished
  | .PROCEDURAL => procedural

/-- `isPolishedAvailable = !!polishedPayload`. -/
def isPolishedAvailable (polished : Option Payload) : Bool := polished.isSome

/-- `isProceduralAvailable = !!proceduralPayload`. -/
def isProceduralAvailable (procedural : Option Payload) : Bool := procedural.isSome

/-- The procedural toggle button carries `disabled={!isProceduralAvailable}`. -/
def proceduralToggleDisabled (procedural : Option Payload) : Bool :=
  !(isProceduralAvailable procedural)

/-- The polished toggle button carries `disabled={!isPolishedAvailable}`. -/
def polishedToggleDisabled (polished : Option Payload) : Bool :=
  !(isPolishedAvailable polished)

/-- Modelled from the spec: `registerReviewerPayload` is provided by
`src/store/ProceduralContext`, which is not part of this repository snapshot.
Per section 4.3 it publishes "a copy into the Approved Registry keyed by
(nodeId, preview-out-i)" and per section 6 the registry is a "keyed mapping
(nodeId, portId) -> Payload"; republication "overwrites any prior value at
that key; it never deletes".  We model it as the pointwise update of the
double-keyed map at exactly that key. -/
def registerReviewerPayload (reg : Registry) (nodeId portId : String)
    (p : Payload) : Registry :=
  fun n q => if n = nodeId ∧ q = portId then some p else reg n q

/-- Step 5 of `PreviewInstanceRow` (identical in both variants): the publish
effect.  `if (displayPayload) { const signedOffPayload = { ...displayPayload,
isPolished: true }; registerReviewerPayload(nodeId, preview-out-index,
signedOffPayload); }` — when the displayed payload is absent nothing runs and
the registry is untouched. -/
def publishStep (reg : Registry) (nodeId : String) (index : Nat)
    (display : Option Payload) : Registry :=
  match display with
  | some p =>
    registerReviewerPayload reg nodeId ("preview-out-" ++ toString index)
      { p with isPolished := true }
  | none => reg

/-- A decoded layer from the ag-psd tree: id, name, an optional pixel buffer
(modelled as an opaque canvas identifier; truthiness of `layer.canvas` is
`Option.isSome`), optional children.  The id field supports the spec-modelled
`findLayerByPath` below. -/
inductive PsdLayer where
  | mk (id name : String) (canvas : Option Nat)
       (children : Option (List PsdLayer))
deriving Repr

def PsdLayer.canvas : PsdLayer → Option Nat
  | .mk _ _ c _ => c

/-- The decoded document: only its `children` list is consulted by the
component. -/
structure Psd where
  children : Option (List PsdLayer)

mutual
/-- One iteration of the p0 `findPixelsRecursive` loop (src/unnamed/part_000
lines 19-31), faithful to the JS: return the canvas when the name matches and
the canvas is truthy; otherwise, when the layer has children, return the
result of searching them. -/
def findPixelsLayer (l : PsdLayer) (targetName : String) : Option Nat :=
  match l with
  | .mk _ nm cv ch =>
    if nm = targetName ∧ cv.isSome then cv
    else
      match ch with
      | some cs => findPixelsInList cs targetName
      | none => none

/-- The `for (const layer of children)` walk of `findPixelsRecursive`: the
first truthy per-layer result wins, later siblings otherwise. -/
def findPixelsInList (ls : List PsdLayer) (targetName : String) : Option Nat :=
  match ls with
  | [] => none
  | l :: rest =>
    match findPixelsLayer l targetName with
    | some f => some f
    | none => findPixelsInList rest targetName
end

/-- `findPixelsRecursive(children, targetName)` of p0: `if (!children) return
null` then the list walk above. -/
def findPixelsRecursive (children : Option (List PsdLayer)) (targetName : String) :
    Option Nat :=
  match children with
  | none => none
  | some ls => findPixelsInList ls targetName

mutual
/-- Depth-first id search in a decoded layer: the layer itself when its id
matches, otherwise its children. -/
def findByIdLayer (l : PsdLayer) (lid : String) : Option PsdLayer :=
  match l with
  | .mk i nm cv ch =>
    if i = lid then some (.mk i nm cv ch)
    else
      match ch with
      | some cs => findByIdList cs lid
      | none => none

/-- Depth-first id search in a decoded sibling list (children of a
non-matching layer are searched before its later siblings). -/
def findByIdList (ls : List PsdLayer) (lid : String) : Option PsdLayer :=
  match ls with
  | [] => none
  | l :: rest =>
    match findByIdLayer l lid with
    | some f => some f
    | none => findByIdList rest lid
end

/-- Modelled from the spec: `findLayerByPath` is imported from
`src/services/psdService`, which is not part of this repository snapshot.
Per section 3 a layer id is a "stable path identifier into the source asset
layer hierarchy" and section 4.4 calls this step the "direct lookup of
layer.id in the decoded asset tree"; we model it as the first layer of the
decoded tree whose identifier equals the requested one. -/
def findLayerByPath (psd : Psd) (lid : String) : Option PsdLayer :=
  match psd.children with
  | some ls => findByIdList ls lid
  | none => none

/-- Pixel-source resolution of the p0 compositor (part_000 lines 211-220):
`if (directLayer && directLayer.canvas) pixelSource = directLayer.canvas;
else pixelSource = findPixelsRecursive(psd.children, layer.name);`. -/
def pixelResolve (psd : Psd) (lid lname : String) : Option Nat :=
  match (findLayerByPath psd lid).bind PsdLayer.canvas with
  | some cv => some cv
  | none => findPixelsRecursive psd.children lname

/-- `name.substring(0, n)` over the character list. -/
def labelTake (s : String) (n : Nat) : String := ⟨s.data.take n⟩

/-- One drawing action of the p0 compositor, with coordinates already
normalised by the container origin (p0 subtracts the origin at each call
site).  `image` records the canvas drawn by
`translate(x - ox, y - oy); [rotate about (w/2, h/2) when rotation is not 0];
globalAlpha = opacity; drawImage(pixelSource, 0, 0, w, h)`. -/
inductive DrawOp where
  | genRect (x y w h : Int)
  | image (canvas : Nat) (x y w h rotation opacity : Int)
  | wireframe (x y w h : Int) (label : Option String)
deriving DecidableEq, Repr

/-- The self-drawing part of one p0 iteration (after the child recursion):
generative placeholder, resolved pixel image, or the amber missing-pixels
wireframe whose label is drawn only when `coords.h > 12`. -/
def selfOps (psd : Psd) (ox oy : Int) (lid lname : String) (lty : LTy)
    (x y w h op rot : Int) : List DrawOp :=
  if lty = .generative then
    [.genRect (x - ox) (y - oy) w h]
  else
    match pixelResolve psd lid lname with
    | some cv => [.image cv (x - ox) (y - oy) w h rot op]
    | none =>
      [.wireframe (x - ox) (y - oy) w h
        (if h > 12 then some ("[MISSING: " ++ labelTake lname 10 ++ "]") else none)]

mutual
/-- One iteration of the p0 `drawLayers` loop body for a single layer:
`if (!layer.isVisible) continue;` then `if (layer.children)
drawLayers(layer.children);` then the self-drawing branch. -/
def drawLayer (psd : Psd) (ox oy : Int) (l : TLayer) : List DrawOp :=
  match l with
  | .mk lid lname lty v x y w h op rot c =>
    if v then
      (match c with
       | some cs => drawList psd ox oy cs
       | none => []) ++ selfOps psd ox oy lid lname lty x y w h op rot
    else []

/-- The p0 `drawLayers` sibling loop: `for (let i = layers.length - 1;
i >= 0; i--)` — the ops of the later siblings are emitted before the ops of
the earlier ones. -/
def drawList (psd : Psd) (ox oy : Int) (ls : List TLayer) : List DrawOp :=
  match ls with
  | [] => []
  | l :: rest => drawList psd ox oy rest ++ drawLayer psd ox oy l
end

/-- One drawing action of the tsx compositor.  The tsx variant translates the
whole context by `(-originX, -originY)` before the traversal, so its call
sites pass absolute coordinates; we record those.  `image` records
`translate(x + w/2, y + h/2); [rotate when rotation is not 0];
globalAlpha = opacity; drawImage(canvas, -w/2, -h/2, w, h)`, determined by
`(x, y, w, h)`. -/
inductive DrawOpT where
  | genRect (x y w h : Int)
  | image (canvas : Nat) (x y w h rotation opacity : Int)
  | wireframe (x y w h : Int) (label : Option String)
deriving DecidableEq, Repr

/-- The self-drawing part of one tsx iteration: the pixel branch has no
name-based fallback — `const originalLayer = findLayerByPath(psd, layer.id);
if (originalLayer && originalLayer.canvas) { ...drawImage... } else
{ ...magenta wireframe, label only when coords.h > 10... }`. -/
def selfOpsTsx (psd : Psd) (lid lname : String) (lty : LTy)
    (x y w h op rot : Int) : List DrawOpT :=
  if lty = .generative then
    [.genRect x y w h]
  else
    match (findLayerByPath psd lid).bind PsdLayer.canvas with
    | some cv => [.image cv x y w h rot op]
    | none =>
      [.wireframe x y w h (if h > 10 then some (labelTake lname 10) else none)]

mutual
/-- One iteration of the tsx `drawLayers` loop body, same skeleton as p0. -/
def drawLayerTsx (psd : Psd) (l : TLayer) : List DrawOpT :=
  match l with
  | .mk lid lname lty v x y w h op rot c =>
    if v then
      (match c with
       | some cs => drawListTsx psd cs
       | none => []) ++ selfOpsTsx psd lid lname lty x y w h op rot
    else []

/-- The tsx `drawLayers` sibling loop, iterating from last to first index. -/
def drawListTsx (psd : Psd) (ls : List TLayer) : List DrawOpT :=
  match ls with
  | [] => []
  | l :: rest => drawListTsx psd rest ++ drawLayerTsx psd l
end

/-- The two pieces of component state the compositor effect writes:
`localPreview` and `renderError`. -/
structure RenderState where
  localPreview : Option String
  renderError : Option String
deriving DecidableEq, Repr

/-- Outcome of the guards at the top of the compositor effect: either an
early return leaving the component in the given state, or permission to run
the canvas composition against the decoded document. -/
inductive GateResult where
  | early (next : RenderState)
  | proceed (psd : Psd)

/-- The tsx render-error message. -/
def binaryMissingMsg : String :=
  "Binary PSD data not loaded. Please ensure LoadPSD is active."

/-- Binary readiness gate of the p0 compositor effect (part_000 lines
117-136): no payload clears both fields; a missing decoded entry displays
`previewUrl` when present (leaving `renderError` untouched) and otherwise
leaves the previous state entirely unchanged. -/
def compositorGate (display : Option Payload) (psdRegistry : String → Option Psd)
    (prev : RenderState) : GateResult :=
  match display with
  | none => .early ⟨none, none⟩
  | some p =>
    match psdRegistry p.sourceNodeId with
    | some psd => .proceed psd
    | none =>
      match p.previewUrl with
      | some u => .early ⟨some u, prev.renderError⟩
      | none => .early prev

/-- Binary safety check of the tsx compositor effect (AssetPreviewNode.tsx
lines 116-138): no payload clears both fields; a missing decoded entry
displays `previewUrl` when present (clearing the error) and otherwise sets
`localPreview` to null and `renderError` to the binary-missing message. -/
def compositorGateTsx (display : Option Payload) (psdRegistry : String → Option Psd)
    (_prev : RenderState) : GateResult :=
  match display with
  | none => .early ⟨none, none⟩
  | some p =>
    match psdRegistry p.sourceNodeId with
    | some psd => .proceed psd
    | none =>
      match p.previewUrl with
      | some u => .early ⟨some u, none⟩
      | none => .early ⟨none, some binaryMissingMsg⟩

/-- Container bounds as read by the component (`cont.bounds.x`,
`cont.bounds.y`). -/
structure ContainerBounds where
  x : Int
  y : Int
deriving DecidableEq, Repr

/-- A named container of a template. -/
structure TemplateContainer where
  name : String
  bounds : ContainerBounds
deriving DecidableEq, Repr

/-- `TemplateMetadata` as read by the component: its `containers` list. -/
structure TemplateMetadata where
  containers : List TemplateContainer
deriving DecidableEq, Repr

/-- The `for (const tmpl of allTemplates) { const cont =
tmpl.containers.find(c => c.name === targetContainer); if (cont) { ...; break; } }`
loop (identical in both variants): the first matching container wins. -/
def containerMatch (templates : List TemplateMetadata) (target : String) :
    Option ContainerBounds :=
  match templates with
  | [] => none
  | t :: rest =>
    match t.containers.find? (fun c => c.name == target) with
    | some c => some c.bounds
    | none => containerMatch rest target

/-- Running minima of the fallback scan; `none` models the JS `Infinity`
sentinel the loop starts from. -/
structure MinAcc where
  minX : Option Int
  minY : Option Int
deriving DecidableEq, Repr

/-- `if (v < m) m = v` against an `Infinity`-initialised accumulator. -/
def updMin : Option Int → Int → Option Int
  | none, v => some v
  | some m, v => if v < m then some v else some m

mutual
/-- One `findMin` visit (identical in both variants): only a visible layer
updates the minima, and only a visible layer has its children scanned. -/
def findMinLayer (l : TLayer) (acc : MinAcc) : MinAcc :=
  match l with
  | .mk _ _ _ v x y _ _ _ _ c =>
    if v then
      let acc2 : MinAcc := ⟨updMin acc.minX x, updMin acc.minY y⟩
      match c with
      | some cs => findMinList cs acc2
      | none => acc2
    else acc

/-- The `layers.forEach` of `findMin`, left to right. -/
def findMinList (ls : List TLayer) (acc : MinAcc) : MinAcc :=
  match ls with
  | [] => acc
  | l :: rest => findMinList rest (findMinLayer l acc)
end

/-- Origin resolution of the compositor effect (identical in both variants):
the first template container named `targetContainer` gives the origin;
otherwise, when the payload has at least one layer, the `findMin` fallback
runs and each axis for which a finite minimum was seen replaces the default
origin 0. -/
def resolveOrigin (templates : List TemplateMetadata) (p : Payload) : Int × Int :=
  match containerMatch templates p.targetContainer with
  | some b => (b.x, b.y)
  | none =>
    if 0 < p.layers.length then
      let acc := findMinList p.layers ⟨none, none⟩
      (acc.minX.getD 0, acc.minY.getD 0)
    else (0, 0)

mutual
/-- Specification-side view of the fallback scan: the coordinate pairs of the
layers the scan visits, i.e. visible layers reachable through visible
ancestors only (an invisible layer prunes its whole subtree). -/
def visCoordsLayer (l : TLayer) : List (Int × Int) :=
  match l with
  | .mk _ _ _ v x y _ _ _ _ c =>
    if v then
      (x, y) :: (match c with
                 | some cs => visCoordsList cs
                 | none => [])
    else []

/-- `visCoordsLayer` over a sibling list, in scan order. -/
def visCoordsList (ls : List TLayer) : List (Int × Int) :=
  match ls with
  | [] => []
  | l :: rest => visCoordsLayer l ++ visCoordsList rest
end

/-- Folding `updMin` over a list, the shape `findMin` computes per axis. -/
def foldMin (a : Option Int) (xs : List Int) : Option Int := xs.foldl updMin a

theorem foldMin_append (a : Option Int) (xs ys : List Int) :
    foldMin a (xs ++ ys) = foldMin (foldMin a xs) ys := by
  simp [foldMin, List.foldl_append]

theorem foldMin_some (m : Int) (xs : List Int) :
    foldMin (some m) xs = some (xs.foldl min m) := by
  induction xs generalizing m with
  | nil => simp [foldMin]
  | cons v t ih =>
    have harg : updMin (some m) v = some (min m v) := by
      rcases lt_or_ge v m with h | h
      · simp [updMin, h, min_def, not_le.mpr h, le_of_lt h]
      · simp [updMin, not_lt.mpr h, min_def, h]
    simp only [foldMin, List.foldl_cons] at *
    rw [harg, ih (min m v)]

theorem foldMin_eq_min? (xs : List Int) : foldMin none xs = xs.min? := by
  cases xs with
  | nil => simp [foldMin, List.min?]
  | cons a t =>
    simp only [foldMin, List.foldl_cons, updMin, List.min?]
    exact foldMin_some a t

mutual
theorem findMinLayer_eq (l : TLayer) (acc : MinAcc) :
    findMinLayer l acc =
      ⟨foldMin acc.minX ((visCoordsLayer l).map Prod.fst),
       foldMin acc.minY ((visCoordsLayer l).map Prod.snd)⟩ := by
  cases l with
  | mk lid lname lty v x y w h op rot c =>
    cases hv : v with
    | false => simp [findMinLayer, visCoordsLayer, foldMin]
    | true =>
      cases c with
      | none => simp [findMinLayer, visCoordsLayer, foldMin]
      | some cs =>
        have ih := findMinList_eq cs ⟨updMin acc.minX x, updMin acc.minY y⟩
        simp only [findMinLayer, visCoordsLayer, if_true, List.map_cons]
        rw [ih]
        simp [foldMin]

theorem findMinList_eq (ls : List TLayer) (acc : MinAcc) :
    findMinList ls acc =
      ⟨foldMin acc.minX ((visCoordsList ls).map Prod.fst),
       foldMin acc.minY ((visCoordsList ls).map Prod.snd)⟩ := by
  cases ls with
  | nil => simp [findMinList, visCoordsList, foldMin]
  | cons l rest =>
    have ihl := findMinLayer_eq l acc
    have ihr := findMinList_eq rest (findMinLayer l acc)
    simp only [findMinList, visCoordsList, List.map_append]
    rw [ihr, ihl]
    simp [foldMin_append]
end

theorem containerMatch_eq_none (templates : List TemplateMetadata) (target : String)
    (hno : ∀ t ∈ templates, ∀ c ∈ t.containers, c.name ≠ target) :
    containerMatch templates target = none := by
  induction templates with
  | nil => rfl
  | cons t rest ih =>
    have hfind : t.containers.find? (fun c => c.name == target) = none := by
      apply List.find?_eq_none.mpr
      intro c hc
      simpa using hno t (by simp) c hc
    simp only [containerMatch, hfind]
    exact ih (fun t' ht' c hc => hno t' (by simp [ht']) c hc)

theorem drawList_eq_join (psd : Psd) (ox oy : Int) (ls : List TLayer) :
    drawList psd ox oy ls = ((ls.reverse).map (drawLayer psd ox oy)).flatten := by
  induction ls with
  | nil => simp [drawList]
  | cons l rest ih =>
    simp [drawList, ih, List.reverse_cons, List.map_append, List.flatten_append]

theorem drawLayer_invisible (psd : Psd) (ox oy : Int) (l : TLayer)
    (h : l.isVisible = false) : drawLayer psd ox oy l = [] := by
  cases l with
  | mk lid lname lty v x y w hh op rot c =>
    simp only [TLayer.isVisible] at h
    subst h
    simp [drawLayer]

theorem drawListTsx_eq_join (psd : Psd) (ls : List TLayer) :
    drawListTsx psd ls = ((ls.reverse).map (drawLayerTsx psd)).flatten := by
  induction ls with
  | nil => simp [drawListTsx]
  | cons l rest ih =>
    simp [drawListTsx, ih, List.reverse_cons, List.map_append, List.flatten_append]

theorem drawLayerTsx_invisible (psd : Psd) (l : TLayer)
    (h : l.isVisible = false) : drawLayerTsx psd l = [] := by
  cases l with
  | mk lid lname lty v x y w hh op rot c =>
    simp only [TLayer.isVisible] at h
    subst h
    simp [drawLayerTsx]

theorem replaceFirstChars_ne_nil (pat rep : List Char) (l : List Char)
    (hl : l ≠ []) (hrep : rep ≠ []) : replaceFirstChars pat rep l ≠ [] := by
  cases l with
  | nil => exact absurd rfl hl
  | cons c rest =>
    simp only [replaceFirstChars]
    split
    · intro h
      exact hrep (List.append_eq_nil.mp h).1
    · exact List.cons_ne_nil _ _

theorem replaceFirst_ne_empty (s : String) (hs : s ≠ "") :
    replaceFirst s "polished-out" "payload-in" ≠ "" := by
  cases s with
  | mk data =>
    have hd : data ≠ [] := by
      intro h
      subst h
      exact hs rfl
    intro h
    have hchars : replaceFirstChars ("polished-out".data) ("payload-in".data) data = [] := by
      simpa [replaceFirst] using congrArg String.data h
    exact replaceFirstChars_ne_nil _ _ _ hd (by decide) hchars

/-- A concrete payload used by the witnesses. -/
def samplePayload : Payload :=
  { sourceNodeId := "asset1", targetContainer := "hero", targetW := 100,
    targetH := 50, scaleFactor := 1, layers := [], previewUrl := none,
    isPolished := false }

/-- C1: the displayed payload is strictly the candidate of the selected mode
(PROCEDURAL shows the raw candidate, POLISHED the approved one); when the
selected candidate is absent the display is absent, and the other candidate
is never substituted. -/
theorem C1_display_strict_selection (polished procedural : Option Payload) :
    displayPayload .PROCEDURAL polished procedural = procedural ∧
    displayPayload .POLISHED polished procedural = polished ∧
    (procedural = none → displayPayload .PROCEDURAL polished procedural = none) ∧
    (polished = none → displayPayload .POLISHED polished procedural = none) :=
  ⟨rfl, rfl, fun h => h, fun h => h⟩

/-- Witness for C1 at a concrete input: with the raw candidate absent and the
approved one present, the PROCEDURAL view still displays nothing. -/
theorem C1_display_strict_selection_witness :
    displayPayload .PROCEDURAL (some samplePayload) none = none :=
  (C1_display_strict_selection (some samplePayload) none).2.2.1 rfl

/-- C2: whenever a displayed payload exists, a copy with `isPolished` forced
to `true` is published under `(nodeId, preview-out-index)`, regardless of the
mode the payload came from; when the displayed payload is absent the registry
is returned unchanged, so no entry is deleted. -/
theorem C2_publish_forces_approved (reg : Registry) (nodeId : String) (index : Nat)
    (mode : PreviewMode) (polished procedural : Option Payload) :
    (∀ p, displayPayload mode polished procedural = some p →
      publishStep reg nodeId index (displayPayload mode polished procedural)
        nodeId ("preview-out-" ++ toString index) = some { p with isPolished := true }) ∧
    (displayPayload mode polished procedural = none →
      publishStep reg nodeId index (displayPayload mode polished procedural) = reg) := by
  constructor
  · intro p hp
    rw [hp]
    simp [publishStep, registerReviewerPayload]
  · intro h
    rw [h]
    rfl

/-- Witness for C2 at a concrete input: a procedural payload viewed in
PROCEDURAL mode lands in the approved registry with the flag forced. -/
theorem C2_publish_forces_approved_witness :
    publishStep emptyRegistry "pv" 0
        (displayPayload .PROCEDURAL none (some samplePayload))
        "pv" ("preview-out-" ++ toString 0)
      = some { samplePayload with isPolished := true } :=
  (C2_publish_forces_approved emptyRegistry "pv" 0 .PROCEDURAL none
    (some samplePayload)).1 samplePayload rfl

/-- C3: for a connected slot with a named upstream port, the raw candidate is
resolved by rewriting `polished-out` to `payload-in`, finding the edge into
that derived input of the upstream node, and reading the raw registry at that
grandparent edge source; without such a second-hop edge the upstream (source,
port) pair itself is read. -/
theorem C3_two_hop_raw_resolution (edges : List GraphEdge)
    (payloadRegistry : Registry) (nodeId : String) (index : Nat)
    (e : GraphEdge) (s : String)
    (h : upstreamEdge edges nodeId index = some e)
    (hs : e.sourceHandle = some s) (hs0 : s ≠ "") :
    proceduralPayload edges payloadRegistry nodeId index =
      match edges.find? (fun g => g.target == e.source &&
          g.targetHandle == some (replaceFirst s "polished-out" "payload-in")) with
      | some gp => payloadRegistry gp.source (gp.sourceHandle.getD "")
      | none => payloadRegistry e.source s := by
  have hne : replaceFirst s "polished-out" "payload-in" ≠ "" :=
    replaceFirst_ne_empty s hs0
  simp only [proceduralPayload, h, hs, Option.map_some', Option.getD_some]
  rw [if_neg hne]

/-- Upstream edge of the C3 witness graph: a reviewer feeding the preview. -/
def edgeRev : GraphEdge :=
  ⟨"rev", some "polished-out-0", "pv", some "payload-in-0"⟩

/-- Grandparent edge of the C3 witness graph: a remapper feeding the
reviewer input derived from its output port name. -/
def edgeMap : GraphEdge :=
  ⟨"map", some "out-A", "rev", some "payload-in-0"⟩

/-- Raw registry of the C3 witness graph: the remapper published one
payload. -/
def rawReg0 : Registry :=
  fun n q => if n = "map" ∧ q = "out-A" then some samplePayload else none

/-- Witness for C3 at a concrete graph: the two-hop walk lands on the
remapper entry. -/
theorem C3_two_hop_raw_resolution_witness :
    proceduralPayload [edgeRev, edgeMap] rawReg0 "pv" 0 = some samplePayload := by
  have h := C3_two_hop_raw_resolution [edgeRev, edgeMap] rawReg0 "pv" 0
    edgeRev "polished-out-0" (by decide) rfl (by decide)
  exact h.trans rfl

/-- C4: a slot with no edge into `(nodeId, payload-in-index)` has both
candidates absent, displays nothing in either mode, has both toggles
disabled, and leaves any approved registry unchanged. -/
theorem C4_disconnected_slot (edges : List GraphEdge) (rawReg apprReg : Registry)
    (nodeId : String) (index : Nat)
    (h : upstreamEdge edges nodeId index = none) :
    polishedPayload edges apprReg nodeId index = none ∧
    proceduralPayload edges rawReg nodeId index = none ∧
    (∀ mode, displayPayload mode (polishedPayload edges apprReg nodeId index)
        (proceduralPayload edges rawReg nodeId index) = none) ∧
    proceduralToggleDisabled (proceduralPayload edges rawReg nodeId index) = true ∧
    polishedToggleDisabled (polishedPayload edges apprReg nodeId index) = true ∧
    (∀ (reg : Registry) (mode : PreviewMode),
      publishStep reg nodeId index (displayPayload mode
        (polishedPayload edges apprReg nodeId index)
        (proceduralPayload edges rawReg nodeId index)) = reg) := by
  have hp : polishedPayload edges apprReg nodeId index = none := by
    simp [polishedPayload, h]
  have hq : proceduralPayload edges rawReg nodeId index = none := by
    simp [proceduralPayload, h]
  have hd : ∀ mode, displayPayload mode (polishedPayload edges apprReg nodeId index)
      (proceduralPayload edges rawReg nodeId index) = none := by
    intro mode
    cases mode <;> simp [displayPayload, hp, hq]
  refine ⟨hp, hq, hd, ?_, ?_, ?_⟩
  · simp [proceduralToggleDisabled, isProceduralAvailable, hq]
  · simp [polishedToggleDisabled, isPolishedAvailable, hp]
  · intro reg mode
    rw [hd mode]
    rfl

/-- Witness for C4 at a concrete input: the empty graph disconnects slot 0;
the toggle is disabled and a publish pass is the identity. -/
theorem C4_disconnected_slot_witness :
    proceduralToggleDisabled (proceduralPayload [] emptyRegistry "pv" 0) = true ∧
    publishStep emptyRegistry "pv" 0 (displayPayload .PROCEDURAL
      (polishedPayload [] emptyRegistry "pv" 0)
      (proceduralPayload [] emptyRegistry "pv" 0)) = emptyRegistry := by
  have h := C4_disconnected_slot [] emptyRegistry emptyRegistry "pv" 0 rfl
  exact ⟨h.2.2.2.1, h.2.2.2.2.2 emptyRegistry .PROCEDURAL⟩

/-- C10: a connected slot whose upstream edge has a null source handle keys
both registry lookups (the approved one and the one-hop raw fallback) by the
empty string. -/
theorem C10_null_handle_empty_key (edges : List GraphEdge)
    (rawReg apprReg : Registry) (nodeId : String) (index : Nat) (e : GraphEdge)
    (h : upstreamEdge edges nodeId index = some e)
    (hs : e.sourceHandle = none) :
    polishedPayload edges apprReg nodeId index = apprReg e.source "" ∧
    proceduralPayload edges rawReg nodeId index = rawReg e.source "" := by
  constructor
  · simp [polishedPayload, h, hs]
  · simp [proceduralPayload, h, hs]

/-- Upstream edge of the C10 witness graph: its source handle is null. -/
def edgeNull : GraphEdge := ⟨"rev", none, "pv", some "payload-in-0"⟩

/-- Registry of the C10 witness: one entry filed under the empty port id. -/
def regEmptyKey : Registry :=
  fun n q => if n = "rev" ∧ q = "" then some samplePayload else none

/-- Witness for C10 at a concrete input: resolution still yields the payload
stored under the empty-string port id. -/
theorem C10_null_handle_empty_key_witness :
    polishedPayload [edgeNull] regEmptyKey "pv" 0 = some samplePayload ∧
    proceduralPayload [edgeNull] regEmptyKey "pv" 0 = some samplePayload := by
  have h := C10_null_handle_empty_key [edgeNull] regEmptyKey regEmptyKey "pv" 0
    edgeNull (by decide) rfl
  exact ⟨h.1.trans rfl, h.2.trans rfl⟩

/-- C5: when no template container matches the target container, the origin
falls back to the componentwise minimum over the coordinates of the visible
layers (invisible subtrees pruned). -/
theorem C5_fallback_origin (templates : List TemplateMetadata) (p : Payload)
    (hno : ∀ t ∈ templates, ∀ c ∈ t.containers, c.name ≠ p.targetContainer)
    (hne : p.layers ≠ []) :
    resolveOrigin templates p =
      ((((visCoordsList p.layers).map Prod.fst).min?).getD 0,
       (((visCoordsList p.layers).map Prod.snd).min?).getD 0) := by
  have hcm := containerMatch_eq_none templates p.targetContainer hno
  have hlen : 0 < p.layers.length := List.length_pos.mpr hne
  simp only [resolveOrigin, hcm, if_pos hlen]
  rw [findMinList_eq]
  simp [foldMin_eq_min?]

/-- Visible layer at (30, 40) from the spec scenario. -/
def layerA : TLayer := .mk "a" "A" .pixel true 30 40 10 10 1 0 none

/-- Visible layer at (5, 60) from the spec scenario. -/
def layerB : TLayer := .mk "b" "B" .pixel true 5 60 10 10 1 0 none

/-- The spec-scenario payload with layers at (30, 40) and (5, 60). -/
def payC5 : Payload := { samplePayload with layers := [layerA, layerB] }

/-- Witness for C5 at the spec scenario: layers at (30, 40) and (5, 60) give
the fallback origin (5, 40). -/
theorem C5_fallback_origin_witness : resolveOrigin [] payC5 = (5, 40) := by
  have h := C5_fallback_origin [] payC5 (by simp) (List.cons_ne_nil _ _)
  exact h.trans (by decide)

/-- C6: in both compositor variants every sibling list is painted in reverse
declaration order (the trace is the concatenation of the per-layer traces of
the reversed list), and an invisible layer contributes nothing — its whole
subtree included — even when its descendants are visible. -/
theorem C6_reverse_paint_invisible_pruned (psd : Psd) (ox oy : Int) :
    (∀ ls : List TLayer,
      drawList psd ox oy ls = ((ls.reverse).map (drawLayer psd ox oy)).flatten) ∧
    (∀ l : TLayer, l.isVisible = false → drawLayer psd ox oy l = []) ∧
    (∀ ls : List TLayer,
      drawListTsx psd ls = ((ls.reverse).map (drawLayerTsx psd)).flatten) ∧
    (∀ l : TLayer, l.isVisible = false → drawLayerTsx psd l = []) :=
  ⟨drawList_eq_join psd ox oy, drawLayer_invisible psd ox oy,
   drawListTsx_eq_join psd, drawLayerTsx_invisible psd⟩

/-- A visible pixel child used inside invisible parents. -/
def visChild : TLayer := .mk "vc" "vis-child" .pixel true 1 2 3 4 1 0 none

/-- An invisible group parent with a visible child. -/
def invParent : TLayer := .mk "ip" "inv-parent" .group false 0 0 9 9 1 0 (some [visChild])

/-- A decoded document with an empty layer list. -/
def psdEmpty : Psd := ⟨some []⟩

/-- Witness for C6 at a concrete input: an invisible parent with a visible
child draws nothing in either variant. -/
theorem C6_reverse_paint_invisible_pruned_witness :
    drawLayer psdEmpty 0 0 invParent = [] ∧ drawLayerTsx psdEmpty invParent = [] := by
  have h := C6_reverse_paint_invisible_pruned psdEmpty 0 0
  exact ⟨h.2.1 invParent rfl, h.2.2.2 invParent rfl⟩

/-- An invisible pixel child of the C7 group. -/
def invChild : TLayer := .mk "ch" "child" .pixel false 1 1 2 2 1 0 none

/-- A visible group layer with one (invisible) child; its id and name match
nothing in the decoded document. -/
def groupLayer : TLayer := .mk "g1" "grp" .group true 3 4 10 20 1 0 (some [invChild])

/-- C7 counterexample: a visible group layer with children does NOT stop at
recursing into them — after the recursion both compositor variants run the
standard pixel branch on the group itself, and since no pixel data resolves
for it they emit a missing-data wireframe for the group node itself. -/
theorem C7_group_selfdraw_counterexample :
    drawLayer psdEmpty 0 0 groupLayer
      = [.wireframe 3 4 10 20 (some "[MISSING: grp]")] ∧
    drawLayerTsx psdEmpty groupLayer
      = [.wireframe 3 4 10 20 (some "grp")] :=
  ⟨by decide, by decide⟩

/-- C7 (amended): a visible group layer with children first recurses into the
children, and then runs the same self-drawing branch as a pixel layer; in
particular when pixel resolution fails a wireframe rectangle IS emitted for
the group node itself, in both compositor variants. -/
theorem C7_group_children_then_selfdraw (psd : Psd) (ox oy : Int)
    (lid lname : String) (x y w h op rot : Int) (cs : List TLayer) :
    drawLayer psd ox oy (.mk lid lname .group true x y w h op rot (some cs))
      = drawList psd ox oy cs ++ selfOps psd ox oy lid lname .group x y w h op rot ∧
    (pixelResolve psd lid lname = none →
      drawLayer psd ox oy (.mk lid lname .group true x y w h op rot (some cs))
        = drawList psd ox oy cs ++
          [.wireframe (x - ox) (y - oy) w h
            (if h > 12 then some ("[MISSING: " ++ labelTake lname 10 ++ "]") else none)]) ∧
    drawLayerTsx psd (.mk lid lname .group true x y w h op rot (some cs))
      = drawListTsx psd cs ++ selfOpsTsx psd lid lname .group x y w h op rot ∧
    ((findLayerByPath psd lid).bind PsdLayer.canvas = none →
      drawLayerTsx psd (.mk lid lname .group true x y w h op rot (some cs))
        = drawListTsx psd cs ++
          [.wireframe x y w h (if h > 10 then some (labelTake lname 10) else none)]) := by
  refine ⟨rfl, ?_, rfl, ?_⟩
  · intro hres
    simp [drawLayer, selfOps, hres]
  · intro hres
    simp [drawLayerTsx, selfOpsTsx, hres]

/-- Witness for the amended C7 at a concrete input: the group trace is the
child trace followed by the wireframe for the group itself. -/
theorem C7_group_children_then_selfdraw_witness :
    drawLayer psdEmpty 0 0 groupLayer
      = drawList psdEmpty 0 0 [invChild] ++ [.wireframe 3 4 10 20 (some "[MISSING: grp]")] := by
  have h := (C7_group_children_then_selfdraw psdEmpty 0 0 "g1" "grp"
    3 4 10 20 1 0 [invChild]).2.1 (by decide)
  exact h.trans (by decide)

/-- A decoded document holding pixel data only under the name "hero", with a
different id. -/
def psdNameOnly : Psd := ⟨some [.mk "other" "hero" (some 7) none]⟩

/-- A pixel layer whose id matches nothing but whose name matches the decoded
layer above. -/
def pixelLayerC8 : TLayer := .mk "missing-id" "hero" .pixel true 10 10 20 20 1 0 none

/-- C8 counterexample: the name-based fallback exists only in the p0
compositor.  On the same input whose id lookup fails but whose name matches
decoded pixel data, the tsx compositor draws the missing-data wireframe
(no fallback search), while the p0 compositor draws the image found by
name. -/
theorem C8_name_fallback_counterexample :
    drawLayerTsx psdNameOnly pixelLayerC8
      = [.wireframe 10 10 20 20 (some "hero")] ∧
    drawLayer psdNameOnly 0 0 pixelLayerC8
      = [.image 7 10 10 20 20 0 1] :=
  ⟨by decide, by decide⟩

/-- C8 (amended): in the p0 compositor, pixel data is resolved by the direct
id lookup first, then by the recursive name search, and the wireframe is
drawn only when both fail; the tsx compositor performs only the direct id
lookup and draws the wireframe whenever it yields no canvas. -/
theorem C8_pixel_resolution_order (psd : Psd) (lid lname : String) :
    (∀ cv, (findLayerByPath psd lid).bind PsdLayer.canvas = some cv →
      pixelResolve psd lid lname = some cv) ∧
    ((findLayerByPath psd lid).bind PsdLayer.canvas = none →
      pixelResolve psd lid lname = findPixelsRecursive psd.children lname) ∧
    (∀ ox oy x y w h op rot,
      drawLayer psd ox oy (.mk lid lname .pixel true x y w h op rot none)
        = (match pixelResolve psd lid lname with
           | some cv => [.image cv (x - ox) (y - oy) w h rot op]
           | none => [.wireframe (x - ox) (y - oy) w h
               (if h > 12 then some ("[MISSING: " ++ labelTake lname 10 ++ "]")
                else none)])) ∧
    (∀ x y w h op rot,
      drawLayerTsx psd (.mk lid lname .pixel true x y w h op rot none)
        = (match (findLayerByPath psd lid).bind PsdLayer.canvas with
           | some cv => [.image cv x y w h rot op]
           | none => [.wireframe x y w h
               (if h > 10 then some (labelTake lname 10) else none)])) := by
  refine ⟨?_, ?_, fun ox oy x y w h op rot => rfl, fun x y w h op rot => rfl⟩
  · intro cv hcv
    simp [pixelResolve, hcv]
  · intro hnone
    simp [pixelResolve, hnone]

/-- Witness for the amended C8 at a concrete input: with the id lookup
failing, resolution reduces to the name search and finds the canvas. -/
theorem C8_pixel_resolution_order_witness :
    pixelResolve psdNameOnly "missing-id" "hero" = some 7 := by
  have h := (C8_pixel_resolution_order psdNameOnly "missing-id" "hero").2.1 (by decide)
  exact h.trans (by decide)

/-- A psd registry with no decoded entries. -/
def emptyPsdReg : String → Option Psd := fun _ => none

/-- A render state holding a previously composited image and no error. -/
def prior0 : RenderState := ⟨some "prior-image", none⟩

/-- A payload carrying a precomputed preview url. -/
def payWithUrl : Payload := { samplePayload with previewUrl := some "ghost.png" }

/-- C9 counterexample: payload present, its asset not decoded, no previewUrl,
and a previously composited image on screen.  The claim demands a reported
binary-data-missing state AND a preserved prior image; the tsx variant
reports but CLEARS the prior image, and the p0 variant preserves the prior
image but reports NOTHING — the conjunction fails on each variant. -/
theorem C9_gate_counterexample :
    compositorGateTsx (some samplePayload) emptyPsdReg prior0
      = .early ⟨none, some binaryMissingMsg⟩ ∧
    compositorGate (some samplePayload) emptyPsdReg prior0
      = .early ⟨some "prior-image", none⟩ :=
  ⟨rfl, rfl⟩

/-- C9 (amended): when the displayed payload is present but its source asset
has no decoded entry, both variants display `previewUrl` when it exists (p0
leaving the previous error untouched, tsx clearing it); when it does not, the
tsx variant clears the image and reports the binary-missing error, while the
p0 variant leaves the previous state entirely unchanged and reports
nothing. -/
theorem C9_binary_gate (psdReg : String → Option Psd) (p : Payload)
    (prev : RenderState) (hpsd : psdReg p.sourceNodeId = none) :
    (∀ u, p.previewUrl = some u →
      compositorGate (some p) psdReg prev = .early ⟨some u, prev.renderError⟩ ∧
      compositorGateTsx (some p) psdReg prev = .early ⟨some u, none⟩) ∧
    (p.previewUrl = none →
      compositorGate (some p) psdReg prev = .early prev ∧
      compositorGateTsx (some p) psdReg prev
        = .early ⟨none, some binaryMissingMsg⟩) := by
  constructor
  · intro u hu
    constructor <;> simp [compositorGate, compositorGateTsx, hpsd, hu]
  · intro hu
    constructor <;> simp [compositorGate, compositorGateTsx, hpsd, hu]

/-- Witness for the amended C9 at a concrete input: with a preview url
present both variants display it. -/
theorem C9_binary_gate_witness :
    compositorGate (some payWithUrl) emptyPsdReg prior0
      = .early ⟨some "ghost.png", none⟩ ∧
    compositorGateTsx (some payWithUrl) emptyPsdReg prior0
      = .early ⟨some "ghost.png", none⟩ := by
  have h := (C9_binary_gate emptyPsdReg payWithUrl prior0 rfl).1 "ghost.png" rfl
  exact ⟨h.1, h.2⟩
